import Mathlib

/-!
# Shallow embedding of the Nikola DFSPH fluid solver

This file embeds the fluid-solver core of the repository (the `Fluid`
aggregate and its solver in `src/fluids/pressure.rs`) into Lean 4 and
proves the specification claims about it.

Scalars are embedded as `ℚ` (the source uses `f32`; no claim below
depends on rounding, and every divergence from IEEE semantics that a
claim touches — division by zero in the CFL stage — is modelled
explicitly with an `Option`-valued checked division).

The fluid core spans several source modules.  Only
`src/fluids/pressure.rs` (the `Fluid` struct and solver) is present in
the sources; the modules `fluids::kernel`, `fluids::particle`,
`fluids::neighborhoods` and `fluids::non_pressure` are referenced but
absent, so their definitions below are modelled from the specification
(each such definition carries a doc comment starting `Modelled from the
spec:`).  Shared mutable particle references (`Rcc<SmoothedParticle>`)
are embedded as a single particle list addressed by index, so neighbor
lists alias the live particle state exactly as the source's shared
cells do.
-/

namespace Nikola

/-- A 3-component vector over `ℚ`, embedding `bevy::prelude::Vec3`
(component-wise arithmetic). -/
structure Vec3 where
  x : ℚ
  y : ℚ
  z : ℚ
deriving DecidableEq

namespace Vec3

instance : Zero Vec3 := ⟨⟨0, 0, 0⟩⟩

instance : Add Vec3 := ⟨fun a b => ⟨a.x + b.x, a.y + b.y, a.z + b.z⟩⟩

instance : Sub Vec3 := ⟨fun a b => ⟨a.x - b.x, a.y - b.y, a.z - b.z⟩⟩

instance : Neg Vec3 := ⟨fun a => ⟨-a.x, -a.y, -a.z⟩⟩

instance : SMul ℚ Vec3 := ⟨fun c a => ⟨c * a.x, c * a.y, c * a.z⟩⟩

/-- Dot product. -/
def dot (a b : Vec3) : ℚ := a.x * b.x + a.y * b.y + a.z * b.z

/-- Squared Euclidean norm (exact in `ℚ`). -/
def sqLength (a : Vec3) : ℚ := a.x * a.x + a.y * a.y + a.z * a.z

/-- Modelled: `bevy::Vec3::length` is the Euclidean norm, which is
irrational in general and hence not representable in `ℚ`.  We model it
by the squared norm, which agrees with the norm on the zero vector and
orders vectors identically; the claims below use only zeroness of the
maximum velocity and the flow of the value into the CFL division, never
a second numerical property of the norm. -/
def length (a : Vec3) : ℚ := sqLength a

@[simp] theorem zero_def : (0 : Vec3) = ⟨0, 0, 0⟩ := rfl

@[simp] theorem add_def (a b c d e f : ℚ) :
    (⟨a, b, c⟩ : Vec3) + ⟨d, e, f⟩ = ⟨a + d, b + e, c + f⟩ := rfl

@[simp] theorem sub_def (a b c d e f : ℚ) :
    (⟨a, b, c⟩ : Vec3) - ⟨d, e, f⟩ = ⟨a - d, b - e, c - f⟩ := rfl

@[simp] theorem neg_def (a b c : ℚ) :
    -(⟨a, b, c⟩ : Vec3) = ⟨-a, -b, -c⟩ := rfl

@[simp] theorem smul_def (r a b c : ℚ) :
    r • (⟨a, b, c⟩ : Vec3) = ⟨r * a, r * b, r * c⟩ := rfl

@[simp] theorem dot_mk (a b c d e f : ℚ) :
    dot ⟨a, b, c⟩ ⟨d, e, f⟩ = a * d + b * e + c * f := rfl

@[simp] theorem sqLength_mk (a b c : ℚ) :
    sqLength ⟨a, b, c⟩ = a * a + b * b + c * c := rfl

theorem smul_zero_vec (r : ℚ) : r • (0 : Vec3) = 0 := by
  simp

theorem sub_zero_vec (a : Vec3) : a - 0 = a := by
  obtain ⟨x, y, z⟩ := a
  simp

end Vec3

/-- Modelled from the spec: the default kernel support radius ("a
default tied to particle size", §4.1); `fluids::kernel` is absent from
the sources, so the concrete constant is a model choice (four particle
radii for the repository's 0.1 particle radius). -/
def supportRadius : ℚ := 2/5

/-- Modelled from the spec: `fluids::kernel::smoothing_kernel_grad` is
absent from the sources.  §4.1 requires a pure gradient taking the two
positions and an optional support radius, antisymmetric
(`gradient(a,b) = -gradient(b,a)`), zero at coincident positions, and
vanishing smoothly outside the support radius.  We model it by the
compactly supported polynomial gradient
`(h² - |a-b|²) · (a-b)` inside the support and `0` outside, which has
all the required properties exactly over `ℚ`. -/
def smoothing_kernel_grad (pa pb : Vec3) (hr : Option ℚ) : Vec3 :=
  let h := hr.getD supportRadius
  let d := pa - pb
  if Vec3.sqLength d < h ^ 2 then (h ^ 2 - Vec3.sqLength d) • d else 0

/-- Per-particle state of `fluids::particle::SmoothedParticle` (the
fields are exactly those read and written by `pressure.rs`). -/
structure SmoothedParticle where
  position : Vec3
  velocity : Vec3
  velocity_predict : Vec3
  density : ℚ
  density_predict : ℚ
  mass : ℚ
  pressure : ℚ
  pressure_value : ℚ
  dsph_factor : ℚ
deriving DecidableEq

namespace SmoothedParticle

/-- Modelled from the spec: `SmoothedParticle::compute_dsph_factor` is
absent from the sources.  §4.3: "returns the DFSPH stiffness factor
from the sum of kernel gradients over neighbors (guards against
division by near-zero denominator — particles with too few neighbors
get a factor of zero, disabling the pressure correction for that
particle rather than producing infinity/NaN)".  The denominator is the
standard DFSPH one, `|Σⱼ mⱼ∇Wᵢⱼ|² + Σⱼ |mⱼ∇Wᵢⱼ|²`; the near-zero guard
becomes an exact zero test over `ℚ`. -/
def compute_dsph_factor (p : SmoothedParticle) (neighbors : List SmoothedParticle) : ℚ :=
  let gradSum : Vec3 := (neighbors.map fun n =>
    n.mass • smoothing_kernel_grad p.position n.position none).foldl (fun a b => a + b) 0
  let denom : ℚ := Vec3.sqLength gradSum + (neighbors.map fun n =>
    Vec3.sqLength (n.mass • smoothing_kernel_grad p.position n.position none)).foldl
      (fun a b => a + b) 0
  if denom = 0 then 0 else p.density / denom

/-- Modelled from the spec:
`SmoothedParticle::compute_density_predict_inplace` is absent from the
sources.  §4.3: "updates `density_predict` from an SPH
density-divergence estimate using neighbor masses, relative velocities,
and kernel gradients"; the standard estimate
`ρᵢ* = ρᵢ + Δt Σⱼ mⱼ (v*ᵢ - v*ⱼ)·∇Wᵢⱼ` over the predicted velocities.
It writes only `density_predict` (read-only over neighbors). -/
def compute_density_predict_inplace (p : SmoothedParticle)
    (neighbors : List SmoothedParticle) (dt : ℚ) : SmoothedParticle :=
  { p with density_predict := p.density + dt * ((neighbors.map fun n =>
      n.mass * Vec3.dot (p.velocity_predict - n.velocity_predict)
        (smoothing_kernel_grad p.position n.position none)).foldl (fun a b => a + b) 0) }

/-- Field-name constant for the stringly-typed field dispatch of
`interpolate_div` (the source passes field names as strings). -/
def fieldVelocity : String := "velocity"

/-- Field-name constant, see `fieldVelocity`. -/
def fieldVelocityPredict : String := "velocity_predict"

/-- Reads the named vector field of a particle for `interpolate_div`;
unknown names read as zero (the dispatch failure mode of stringly-typed
lookup noted in spec §9). -/
def readField (p : SmoothedParticle) (field : String) : Vec3 :=
  if field = fieldVelocity then p.velocity
  else if field = fieldVelocityPredict then p.velocity_predict
  else 0

/-- Modelled from the spec: `SmoothedParticle::interpolate_div` is
absent from the sources.  §4.3: "SPH divergence estimate of a named
vector field (velocity or velocity_predict) at the particle's
location"; the standard estimate
`div A|ᵢ = (1/ρᵢ) Σⱼ mⱼ (Aⱼ - Aᵢ)·∇Wᵢⱼ`. -/
def interpolate_div (p : SmoothedParticle) (neighbors : List SmoothedParticle)
    (field : String) : ℚ :=
  ((neighbors.map fun n =>
    n.mass * Vec3.dot (readField n field - readField p field)
      (smoothing_kernel_grad p.position n.position none)).foldl (fun a b => a + b) 0)
    / p.density

end SmoothedParticle

/-- Gravity acceleration vector (`GRAVITY_ACCELERATION = 9.81` in
`src/particles.rs`, acting downward). -/
def gravityAccel : Vec3 := ⟨0, -(981/100), 0⟩

/-- Modelled from the spec: `fluids::non_pressure::advect` is absent
from the sources.  §4.4 step 3: "external accelerations (gravity,
viscosity ...) are applied to produce `velocity_predict` for every
particle, using `delta_time`"; it writes only `velocity_predict`
(`v* = v + Δt·a_nonp`, gravity being the one modelled acceleration). -/
def advect (particles : List SmoothedParticle) (dt : ℚ) : List SmoothedParticle :=
  particles.map fun p => { p with velocity_predict := p.velocity + dt • gravityAccel }

/-- The `Fluid` aggregate of `src/fluids/pressure.rs`.  The
neighborhood index is embedded as its query interface: a function from
a position to an optional list of indices into `particles` (the
source's `Neighborhoods::get_neighbors` returns
`Option<Vec<Rcc<SmoothedParticle>>>`; indices model the shared
references). -/
structure Fluid where
  particles : List SmoothedParticle
  neighborhoods : Vec3 → Option (List ℕ)
  particle_size : ℚ
  cfl_parameter : ℚ
  density_threshold : ℚ
  divergence_threshold : ℚ
  rest_density : ℚ
  average_density : ℚ
  max_velocity : ℚ
  delta_time : ℚ

namespace Fluid

/-- Resolves a neighbor query against the current particle list
(shared-reference semantics: neighbor data is read from the live
particles). -/
def getNeighbors (f : Fluid) (pos : Vec3) : Option (List SmoothedParticle) :=
  (f.neighborhoods pos).map fun ixs => ixs.filterMap fun j => f.particles.get? j

/-- Modelled from the spec: `Neighborhoods::from` (the rebuild) is
absent from the sources.  §4.2: built from the full particle collection
in one pass; a query "returns all particles whose positions lie within
the kernel support radius of the query position", and a position with
zero neighbors yields the empty result — which the source represents as
`None` (every caller in `pressure.rs` goes through `if let Some` or
`unwrap_or_default`). -/
def buildNeighborhoods (particles : List SmoothedParticle) : Vec3 → Option (List ℕ) :=
  fun pos =>
    let ns := (List.range particles.length).filter fun j =>
      match particles.get? j with
      | some q => Vec3.sqLength (q.position - pos) ≤ supportRadius ^ 2
      | none => false
    if ns.isEmpty then none else some ns

/-- `Fluid::get_average_density` (`pressure.rs:45`): mean of the
particles' `density`. -/
def get_average_density (f : Fluid) : ℚ :=
  ((f.particles.map fun p => p.density).foldl (fun a b => a + b) 0)
    / (f.particles.length : ℚ)

/-- `Fluid::get_max_velocity` (`pressure.rs:53`): running maximum of
the particles' velocity magnitudes, starting from `0.0`. -/
def get_max_velocity (f : Fluid) : ℚ :=
  f.particles.foldl
    (fun m p => if m < Vec3.length p.velocity then Vec3.length p.velocity else m) 0

/-- `Fluid::apply_cfl` (`pressure.rs:141`):
`delta_time = cfl_parameter * particle_size / max_velocity`, with no
guard on a zero divisor.  (`ℚ` division by zero is `0`; the `f32`
division of the source yields an infinity there — the checked variant
`applyCflFinite` models that case faithfully.) -/
def apply_cfl (f : Fluid) : Fluid :=
  { f with delta_time := f.cfl_parameter * f.particle_size / get_max_velocity f }

/-- Finite (IEEE-aware) division: `none` when the divisor is zero,
where `f32` division produces a non-finite value (±∞, or NaN for a zero
numerator). -/
def divFinite (a b : ℚ) : Option ℚ :=
  if b = 0 then none else some (a / b)

/-- The CFL update of `pressure.rs:142` under finite-division
semantics: `some delta_time` when the computed timestep is a finite
number, `none` when the source's `f32` division is by zero and the
result non-finite. -/
def applyCflFinite (f : Fluid) : Option ℚ :=
  divFinite (f.cfl_parameter * f.particle_size) (get_max_velocity f)

/-! ## Density correction (`Fluid::correct_density`, `pressure.rs:63`) -/

/-- First loop of a `correct_density` iteration (`pressure.rs:68-74`):
recompute `density_predict` for every particle whose neighbor query
returns a result (`if let Some`); a `None` query leaves the particle
untouched. -/
def densityPredictStage (f : Fluid) : Fluid :=
  { f with particles := f.particles.map fun p =>
      match f.getNeighbors p.position with
      | some others => p.compute_density_predict_inplace others f.delta_time
      | none => p }

/-- Second loop of a `correct_density` iteration (`pressure.rs:76-78`):
`pressure = 1/delta_time² * (density_predict - rest_density) * dsph_factor`. -/
def densityPressureStage (f : Fluid) : Fluid :=
  { f with particles := f.particles.map fun p =>
      { p with pressure :=
          1 / f.delta_time ^ 2 * (p.density_predict - f.rest_density) * p.dsph_factor } }

/-- One summand of the pressure-gradient accumulation of the density
solver (`pressure.rs:85-89`):
`mⱼ (pᵢ/ρᵢ² + pⱼ/ρⱼ²) ∇W(xᵢ,xⱼ)`. -/
def densityPairTerm (p n : SmoothedParticle) : Vec3 :=
  n.mass • ((p.pressure / p.density ^ 2 + n.pressure / n.density ^ 2) •
    smoothing_kernel_grad p.position n.position none)

/-- Third loop of a `correct_density` iteration (`pressure.rs:80-93`):
`velocity_predict -= delta_time * Σⱼ densityPairTerm`, the neighbor
query's `None` treated as the empty list (`unwrap_or_default`). -/
def densityAccumulateStage (f : Fluid) : Fluid :=
  { f with particles := f.particles.map fun p =>
      let neighbors := (f.getNeighbors p.position).getD []
      let sum := (neighbors.map fun n => densityPairTerm p n).foldl (fun a b => a + b) 0
      { p with velocity_predict := p.velocity_predict - f.delta_time • sum } }

/-- One full iteration of the `correct_density` while-loop body
(`pressure.rs:67-96`). -/
def densityIteration (f : Fluid) : Fluid :=
  densityAccumulateStage (densityPressureStage (densityPredictStage f))

/-- The `correct_density` while-loop (`pressure.rs:67`): condition
`iteration < 2 || average_density - rest_density > threshold`, checked
before each iteration.  The source loop is unbounded; `fuel` bounds the
embedding, `none` meaning the source loop has not terminated within
`fuel` condition checks. -/
def correctDensityLoop (threshold : ℚ) : ℕ → ℕ → Fluid → Option Fluid
  | 0, _, _ => none
  | fuel + 1, iteration, f =>
    if iteration < 2 ∨ threshold < f.average_density - f.rest_density then
      correctDensityLoop threshold fuel (iteration + 1) (densityIteration f)
    else
      some f

/-- `Fluid::correct_density` (`pressure.rs:63`): the loop from
`iteration = 0`. -/
def correct_density (f : Fluid) (threshold : ℚ) (fuel : ℕ) : Option Fluid :=
  correctDensityLoop threshold fuel 0 f

/-! ## Divergence correction (`Fluid::correct_divergence`, `pressure.rs:99`) -/

/-- First loop of a `correct_divergence` iteration
(`pressure.rs:106-111`): the increment this pass adds to
`density_over_time_sum`, namely
`Σᵢ -ρᵢ · interpolate_div(neighbors, "velocity_predict")` over the
current particles (`None` queries treated as empty). -/
def divergenceDotSum (f : Fluid) : ℚ :=
  (f.particles.map fun p =>
    -p.density * p.interpolate_div ((f.getNeighbors p.position).getD [])
      SmoothedParticle.fieldVelocityPredict).foldl (fun a b => a + b) 0

/-- Second loop of a `correct_divergence` iteration
(`pressure.rs:113-123`):
`pressure_value = 1/delta_time * 0.0 * dsph_factor` — the source
multiplies by the literal `0.0` (its line 122); the loop's local
`density_over_time` accumulation (lines 114-120) is computed into a
local variable that is never read, so it has no effect on the state and
is omitted here. -/
def divergencePressureStage (f : Fluid) : Fluid :=
  { f with particles := f.particles.map fun p =>
      { p with pressure_value := 1 / f.delta_time * 0 * p.dsph_factor } }

/-- One summand of the pressure-gradient accumulation of the divergence
solver (`pressure.rs:129-131`):
`mⱼ (pvᵢ/ρᵢ² + pvⱼ/ρⱼ²) ∇W(xᵢ,xⱼ)`. -/
def divergencePairTerm (p n : SmoothedParticle) : Vec3 :=
  n.mass • ((p.pressure_value / p.density ^ 2 + n.pressure_value / n.density ^ 2) •
    smoothing_kernel_grad p.position n.position none)

/-- Third loop of a `correct_divergence` iteration
(`pressure.rs:125-134`): `velocity_predict -= delta_time * Σⱼ
divergencePairTerm`. -/
def divergenceAccumulateStage (f : Fluid) : Fluid :=
  { f with particles := f.particles.map fun p =>
      let neighbors := (f.getNeighbors p.position).getD []
      let sum := (neighbors.map fun n => divergencePairTerm p n).foldl (fun a b => a + b) 0
      { p with velocity_predict := p.velocity_predict - f.delta_time • sum } }

/-- The state-mutating part of one `correct_divergence` iteration
(its second and third loops; the first loop only accumulates the local
`density_over_time_sum`, threaded separately through the loop). -/
def divergenceIteration (f : Fluid) : Fluid :=
  divergenceAccumulateStage (divergencePressureStage f)

/-- The `correct_divergence` while-loop (`pressure.rs:105`): condition
`iteration < 1 || average_density_over_time > threshold`;
`density_over_time_sum` is declared outside the loop and keeps
accumulating across iterations, and `average_density_over_time` is
recomputed from it (divided by the particle count) at the end of each
iteration. -/
def correctDivergenceLoop (threshold : ℚ) :
    ℕ → ℕ → ℚ → ℚ → Fluid → Option Fluid
  | 0, _, _, _, _ => none
  | fuel + 1, iteration, dotSum, avgDot, f =>
    if iteration < 1 ∨ threshold < avgDot then
      let dotSum₂ := dotSum + divergenceDotSum f
      let f₂ := divergenceIteration f
      let avgDot₂ := dotSum₂ / (f₂.particles.length : ℚ)
      correctDivergenceLoop threshold fuel (iteration + 1) dotSum₂ avgDot₂ f₂
    else
      some f

/-- `Fluid::correct_divergence` (`pressure.rs:99`): the loop from
`iteration = 0` with both accumulators initialized to `0.0`. -/
def correct_divergence (f : Fluid) (threshold : ℚ) (fuel : ℕ) : Option Fluid :=
  correctDivergenceLoop threshold fuel 0 0 0 f

/-! ## The step (`Fluid::dfsph`, `pressure.rs:145`) -/

/-- Factor-update loop of `dfsph` (`pressure.rs:146-153`): for every
particle, query neighbors; `if let Some`, recompute `dsph_factor` — a
`None` query leaves the particle's previous `dsph_factor` in place. -/
def factorUpdateStage (f : Fluid) : Fluid :=
  { f with particles := f.particles.map fun p =>
      match f.getNeighbors p.position with
      | some others => { p with dsph_factor := p.compute_dsph_factor others }
      | none => p }

/-- Advection call of `dfsph` (`pressure.rs:162`). -/
def advectStage (f : Fluid) : Fluid :=
  { f with particles := advect f.particles f.delta_time }

/-- Position-integration loop of `dfsph` (`pressure.rs:167-171`):
`position += velocity_predict * delta_time`. -/
def integrateStage (f : Fluid) : Fluid :=
  { f with particles := f.particles.map fun p =>
      { p with position := p.position + f.delta_time • p.velocity_predict } }

/-- Neighborhood rebuild of `dfsph` (`pressure.rs:174`):
`neighborhoods = Neighborhoods::from(&mut particles)`. -/
def rebuildStage (f : Fluid) : Fluid :=
  { f with neighborhoods := buildNeighborhoods f.particles }

/-- Commit loop of `dfsph` (`pressure.rs:183-185`):
`velocity = velocity_predict`. -/
def commitStage (f : Fluid) : Fluid :=
  { f with particles := f.particles.map fun p =>
      { p with velocity := p.velocity_predict } }

/-- `Fluid::dfsph` (`pressure.rs:145`): one simulation step, in source
order — factor update, CFL, advection, density correction, position
integration, neighborhood rebuild, divergence correction, commit.
`fuel` bounds both (source-unbounded) correction loops; `none` means
one of them did not terminate within `fuel`. -/
def dfsph (fuel : ℕ) (f : Fluid) : Option Fluid :=
  let f₁ := factorUpdateStage f
  let f₂ := apply_cfl f₁
  let f₃ := advectStage f₂
  match correct_density f₃ f₃.density_threshold fuel with
  | none => none
  | some f₄ =>
    let f₅ := integrateStage f₄
    let f₆ := rebuildStage f₅
    match correct_divergence f₆ f₆.divergence_threshold fuel with
    | none => none
    | some f₇ => some (commitStage f₇)

/-- The per-particle `mass` and `density` columns of a fluid — the two
fields `dfsph` must never write. -/
def massDensityProfile (f : Fluid) : List ℚ × List ℚ :=
  (f.particles.map fun p => p.mass, f.particles.map fun p => p.density)

end Fluid

/-! ## Concrete states used as inputs of the counterexamples and witnesses -/

/-- A unit-mass particle at rest at the origin. -/
def pRest : SmoothedParticle :=
  ⟨⟨0, 0, 0⟩, ⟨0, 0, 0⟩, ⟨0, 0, 0⟩, 1, 1, 1, 0, 0, 0⟩

/-- A second unit-mass particle at rest. -/
def pRest2 : SmoothedParticle :=
  ⟨⟨1, 0, 0⟩, ⟨0, 0, 0⟩, ⟨0, 0, 0⟩, 1, 1, 1, 0, 0, 0⟩

/-- Two particles, both at rest: the maximum velocity magnitude is
exactly zero, the degenerate input of the CFL stage. -/
def fluidAtRest : Fluid :=
  { particles := [pRest, pRest2]
    neighborhoods := Fluid.buildNeighborhoods [pRest, pRest2]
    particle_size := 1
    cfl_parameter := 2/5
    density_threshold := 1/8
    divergence_threshold := 1/8
    rest_density := 1
    average_density := 1
    max_velocity := 0
    delta_time := 1 }

/-- A particle with predicted velocity `(1,0,0)`, heading toward its
neighbor. -/
def pApproachA : SmoothedParticle :=
  ⟨⟨0, 0, 0⟩, ⟨0, 0, 0⟩, ⟨1, 0, 0⟩, 1, 1, 1, 0, 5, 1⟩

/-- A particle with predicted velocity `(-1,0,0)`, heading toward
`pApproachA`. -/
def pApproachB : SmoothedParticle :=
  ⟨⟨1/5, 0, 0⟩, ⟨0, 0, 0⟩, ⟨-1, 0, 0⟩, 1, 1, 1, 0, 5, 1⟩

/-- Two mutually-approaching particles within support radius: the SPH
divergence of `velocity_predict` at either particle is nonzero. -/
def fluidApproach : Fluid :=
  { particles := [pApproachA, pApproachB]
    neighborhoods := Fluid.buildNeighborhoods [pApproachA, pApproachB]
    particle_size := 1
    cfl_parameter := 2/5
    density_threshold := 1/8
    divergence_threshold := 1/8
    rest_density := 1
    average_density := 1
    max_velocity := 0
    delta_time := 1 }

/-- A fluid whose stored `average_density` exceeds `rest_density` by
more than any small threshold: the density-correction loop's
continuation condition holds on entry. -/
def fluidOverDense : Fluid :=
  { particles := [pRest]
    neighborhoods := fun _ => none
    particle_size := 1
    cfl_parameter := 2/5
    density_threshold := 1/8
    divergence_threshold := 1/8
    rest_density := 1
    average_density := 2
    max_velocity := 0
    delta_time := 1 }

/-- A particle carrying a nonzero `dsph_factor` from a previous step. -/
def pStale : SmoothedParticle :=
  ⟨⟨0, 0, 0⟩, ⟨0, 0, 0⟩, ⟨0, 0, 0⟩, 1, 1, 1, 0, 0, 7⟩

/-- A fluid whose neighborhood index answers `none` at every position,
while its one particle still carries `dsph_factor = 7` from a previous
step. -/
def fluidStaleFactor : Fluid :=
  { particles := [pStale]
    neighborhoods := fun _ => none
    particle_size := 1
    cfl_parameter := 2/5
    density_threshold := 1/8
    divergence_threshold := 1/8
    rest_density := 1
    average_density := 1
    max_velocity := 0
    delta_time := 1 }

/-- A particle with nonzero `velocity_predict` and a stale nonzero
`dsph_factor`, used to exercise the `None`-neighbor paths. -/
def pIso : SmoothedParticle :=
  ⟨⟨0, 0, 0⟩, ⟨0, 0, 0⟩, ⟨1, 2, 3⟩, 1, 1, 1, 0, 0, 7⟩

/-- A fluid whose neighbor queries all answer `none`, holding `pIso`. -/
def fluidIsolated : Fluid :=
  { particles := [pIso]
    neighborhoods := fun _ => none
    particle_size := 1
    cfl_parameter := 2/5
    density_threshold := 1/8
    divergence_threshold := 1/8
    rest_density := 1
    average_density := 1
    max_velocity := 0
    delta_time := 1 }

/-- A particle with a stale `dsph_factor` of `9`. -/
def pIso2 : SmoothedParticle :=
  ⟨⟨0, 0, 0⟩, ⟨0, 0, 0⟩, ⟨0, 0, 0⟩, 1, 1, 1, 0, 0, 9⟩

/-- A fluid whose neighbor queries all answer `none`, holding `pIso2`
with its nonzero stale factor. -/
def fluidIsolated2 : Fluid :=
  { particles := [pIso2]
    neighborhoods := fun _ => none
    particle_size := 1
    cfl_parameter := 2/5
    density_threshold := 1/8
    divergence_threshold := 1/8
    rest_density := 1
    average_density := 1
    max_velocity := 0
    delta_time := 1 }

/-! ## Helper lemmas -/

/-- The modelled kernel gradient is antisymmetric (spec §4.1,
`gradient(a,b) = -gradient(b,a)`). -/
theorem smoothing_kernel_grad_antisymm (a b : Vec3) (hr : Option ℚ) :
    smoothing_kernel_grad a b hr = -(smoothing_kernel_grad b a hr) := by
  obtain ⟨ax, ay, az⟩ := a
  obtain ⟨bx, by', bz⟩ := b
  simp only [smoothing_kernel_grad, Vec3.sub_def, Vec3.sqLength_mk]
  have hsym : (bx - ax) * (bx - ax) + (by' - ay) * (by' - ay) + (bz - az) * (bz - az)
      = (ax - bx) * (ax - bx) + (ay - by') * (ay - by') + (az - bz) * (az - bz) := by
    ring
  rw [hsym]
  split
  · simp only [Vec3.smul_def, Vec3.neg_def, Vec3.mk.injEq]
    refine ⟨by ring, by ring, by ring⟩
  · simp

/-- The kernel gradient vanishes at coincident positions (spec §4.1,
`gradient(p,p) = 0`). -/
theorem smoothing_kernel_grad_self (p : Vec3) (hr : Option ℚ) :
    smoothing_kernel_grad p p hr = 0 := by
  obtain ⟨x, y, z⟩ := p
  simp [smoothing_kernel_grad]

/-- The stringly-typed dispatch resolves `"velocity"`. -/
theorem readField_velocity (p : SmoothedParticle) :
    p.readField SmoothedParticle.fieldVelocity = p.velocity := rfl

/-- The stringly-typed dispatch resolves `"velocity_predict"`. -/
theorem readField_velocity_predict (p : SmoothedParticle) :
    p.readField SmoothedParticle.fieldVelocityPredict = p.velocity_predict := by
  have h : (SmoothedParticle.fieldVelocityPredict = SmoothedParticle.fieldVelocity) = False := by
    simp [SmoothedParticle.fieldVelocityPredict, SmoothedParticle.fieldVelocity]
  simp [SmoothedParticle.readField, h]

namespace Fluid

/-- One-step unfolding of the density-correction loop at nonzero fuel. -/
theorem correctDensityLoop_succ (threshold : ℚ) (fuel it : ℕ) (f : Fluid) :
    correctDensityLoop threshold (fuel + 1) it f =
      if it < 2 ∨ threshold < f.average_density - f.rest_density then
        correctDensityLoop threshold fuel (it + 1) (densityIteration f)
      else some f := rfl

/-- One-step unfolding of the divergence-correction loop at nonzero
fuel. -/
theorem correctDivergenceLoop_succ (threshold : ℚ) (fuel it : ℕ) (dotSum avgDot : ℚ)
    (f : Fluid) :
    correctDivergenceLoop threshold (fuel + 1) it dotSum avgDot f =
      if it < 1 ∨ threshold < avgDot then
        correctDivergenceLoop threshold fuel (it + 1) (dotSum + divergenceDotSum f)
          ((dotSum + divergenceDotSum f) / ((divergenceIteration f).particles.length : ℚ))
          (divergenceIteration f)
      else some f := rfl

/-- A density-correction iteration never writes the fluid's stored
`average_density`. -/
theorem densityIteration_average_density (f : Fluid) :
    (densityIteration f).average_density = f.average_density := rfl

/-- A density-correction iteration never writes `rest_density`. -/
theorem densityIteration_rest_density (f : Fluid) :
    (densityIteration f).rest_density = f.rest_density := rfl

/-- If the continuation condition holds on entry, the density loop
never reaches `some`: the loop body cannot change the condition. -/
theorem correctDensityLoop_none (threshold : ℚ) (fuel : ℕ) :
    ∀ (it : ℕ) (f : Fluid), threshold < f.average_density - f.rest_density →
      correctDensityLoop threshold fuel it f = none := by
  induction fuel with
  | zero => intro it f _; rfl
  | succ n ih =>
    intro it f h
    rw [correctDensityLoop_succ, if_pos (Or.inr h)]
    exact ih (it + 1) (densityIteration f) h

/-- If the stored average density is within threshold of rest density
on entry, the density loop stops after exactly two body iterations
(for any fuel at least 3). -/
theorem correctDensityLoop_converged (threshold : ℚ) (f : Fluid)
    (h : f.average_density - f.rest_density ≤ threshold) (fuel : ℕ) :
    correctDensityLoop threshold (fuel + 3) 0 f =
      some (densityIteration (densityIteration f)) := by
  rw [show fuel + 3 = (fuel + 2) + 1 from rfl, correctDensityLoop_succ,
    if_pos (Or.inl (by norm_num)),
    show fuel + 2 = (fuel + 1) + 1 from rfl, correctDensityLoop_succ,
    if_pos (Or.inl (by norm_num)), correctDensityLoop_succ, if_neg]
  intro hc
  rcases hc with hc | hc
  · omega
  · exact absurd hc (not_lt.mpr h)

/-- Mapping a particle transformation that preserves a scalar field
leaves that field's column unchanged. -/
theorem map_field_eq (g : SmoothedParticle → ℚ) (t : SmoothedParticle → SmoothedParticle)
    (ht : ∀ p, g (t p) = g p) :
    ∀ l : List SmoothedParticle, (l.map t).map g = l.map g := by
  intro l
  induction l with
  | nil => rfl
  | cons a l ih => simp only [List.map_cons, ht, ih]

/-- The factor-update stage preserves the mass/density columns. -/
theorem profile_factorUpdateStage (f : Fluid) :
    massDensityProfile (factorUpdateStage f) = massDensityProfile f := by
  simp only [massDensityProfile, factorUpdateStage, Prod.mk.injEq]
  constructor
  · exact map_field_eq _ _ (fun p => by cases f.getNeighbors p.position <;> rfl) _
  · exact map_field_eq _ _ (fun p => by cases f.getNeighbors p.position <;> rfl) _

/-- The CFL stage preserves the particle list. -/
theorem profile_apply_cfl (f : Fluid) :
    massDensityProfile (apply_cfl f) = massDensityProfile f := rfl

/-- The advection stage preserves the mass/density columns. -/
theorem profile_advectStage (f : Fluid) :
    massDensityProfile (advectStage f) = massDensityProfile f := by
  simp only [massDensityProfile, advectStage, advect, Prod.mk.injEq]
  exact ⟨map_field_eq _ _ (fun p => by rfl) _, map_field_eq _ _ (fun p => by rfl) _⟩

/-- A density-correction iteration preserves the mass/density columns. -/
theorem profile_densityIteration (f : Fluid) :
    massDensityProfile (densityIteration f) = massDensityProfile f := by
  have h₁ : massDensityProfile (densityPredictStage f) = massDensityProfile f := by
    simp only [massDensityProfile, densityPredictStage, Prod.mk.injEq]
    constructor
    · exact map_field_eq _ _
        (fun p => by
          cases f.getNeighbors p.position <;>
            rfl) _
    · exact map_field_eq _ _
        (fun p => by
          cases f.getNeighbors p.position <;>
            rfl) _
  have h₂ : ∀ g : Fluid, massDensityProfile (densityPressureStage g) = massDensityProfile g := by
    intro g
    simp only [massDensityProfile, densityPressureStage, Prod.mk.injEq]
    exact ⟨map_field_eq _ _ (fun p => by rfl) _, map_field_eq _ _ (fun p => by rfl) _⟩
  have h₃ : ∀ g : Fluid, massDensityProfile (densityAccumulateStage g) = massDensityProfile g := by
    intro g
    simp only [massDensityProfile, densityAccumulateStage, Prod.mk.injEq]
    exact ⟨map_field_eq _ _ (fun p => by rfl) _, map_field_eq _ _ (fun p => by rfl) _⟩
  simp only [densityIteration, h₃, h₂, h₁]

/-- A divergence-correction iteration preserves the mass/density
columns. -/
theorem profile_divergenceIteration (f : Fluid) :
    massDensityProfile (divergenceIteration f) = massDensityProfile f := by
  have h₂ : ∀ g : Fluid, massDensityProfile (divergencePressureStage g) = massDensityProfile g := by
    intro g
    simp only [massDensityProfile, divergencePressureStage, Prod.mk.injEq]
    exact ⟨map_field_eq _ _ (fun p => by rfl) _, map_field_eq _ _ (fun p => by rfl) _⟩
  have h₃ : ∀ g : Fluid, massDensityProfile (divergenceAccumulateStage g) = massDensityProfile g := by
    intro g
    simp only [massDensityProfile, divergenceAccumulateStage, Prod.mk.injEq]
    exact ⟨map_field_eq _ _ (fun p => by rfl) _, map_field_eq _ _ (fun p => by rfl) _⟩
  simp only [divergenceIteration, h₃, h₂]

/-- The integration stage preserves the mass/density columns. -/
theorem profile_integrateStage (f : Fluid) :
    massDensityProfile (integrateStage f) = massDensityProfile f := by
  simp only [massDensityProfile, integrateStage, Prod.mk.injEq]
  exact ⟨map_field_eq _ _ (fun p => by rfl) _, map_field_eq _ _ (fun p => by rfl) _⟩

/-- The rebuild stage preserves the particle list. -/
theorem profile_rebuildStage (f : Fluid) :
    massDensityProfile (rebuildStage f) = massDensityProfile f := rfl

/-- The commit stage preserves the mass/density columns. -/
theorem profile_commitStage (f : Fluid) :
    massDensityProfile (commitStage f) = massDensityProfile f := by
  simp only [massDensityProfile, commitStage, Prod.mk.injEq]
  exact ⟨map_field_eq _ _ (fun p => by rfl) _, map_field_eq _ _ (fun p => by rfl) _⟩

/-- A successful run of the density-correction loop preserves the
mass/density columns. -/
theorem correctDensityLoop_profile (threshold : ℚ) (fuel : ℕ) :
    ∀ (it : ℕ) (f g : Fluid), correctDensityLoop threshold fuel it f = some g →
      massDensityProfile g = massDensityProfile f := by
  induction fuel with
  | zero =>
    intro it f g h
    exact Option.noConfusion h
  | succ n ih =>
    intro it f g h
    rw [correctDensityLoop_succ] at h
    by_cases hc : it < 2 ∨ threshold < f.average_density - f.rest_density
    · rw [if_pos hc] at h
      rw [ih (it + 1) (densityIteration f) g h, profile_densityIteration]
    · rw [if_neg hc] at h
      injection h with h
      rw [h]

/-- A successful run of the divergence-correction loop preserves the
mass/density columns. -/
theorem correctDivergenceLoop_profile (threshold : ℚ) (fuel : ℕ) :
    ∀ (it : ℕ) (dotSum avgDot : ℚ) (f g : Fluid),
      correctDivergenceLoop threshold fuel it dotSum avgDot f = some g →
      massDensityProfile g = massDensityProfile f := by
  induction fuel with
  | zero =>
    intro it dotSum avgDot f g h
    exact Option.noConfusion h
  | succ n ih =>
    intro it dotSum avgDot f g h
    rw [correctDivergenceLoop_succ] at h
    by_cases hc : it < 1 ∨ threshold < avgDot
    · rw [if_pos hc] at h
      rw [ih _ _ _ (divergenceIteration f) g h, profile_divergenceIteration]
    · rw [if_neg hc] at h
      injection h with h
      rw [h]

end Fluid

/-! ## Claims -/

/-- C1: the claim says each particle's `pressure_value` is recomputed
from the SPH divergence of `velocity_predict`; the code
(`pressure.rs:122`) instead multiplies by the literal `0.0`, so after
the divergence solver's pressure loop every `pressure_value` is exactly
zero regardless of the state — shown universally, and at a concrete
two-particle state whose `velocity_predict` divergence is nonzero. -/
theorem divergence_pressure_update_is_literal_zero :
    (∀ (f : Fluid) (i : ℕ),
      ((Fluid.divergencePressureStage f).particles.get? i).map (fun p => p.pressure_value) =
        (f.particles.get? i).map fun _ => (0 : ℚ)) ∧
    SmoothedParticle.interpolate_div pApproachA [pApproachA, pApproachB]
      SmoothedParticle.fieldVelocityPredict ≠ 0 ∧
    ((Fluid.divergencePressureStage fluidApproach).particles.map fun p => p.pressure_value)
      = [0, 0] := by
  refine ⟨?_, ?_, ?_⟩
  · intro f i
    simp only [Fluid.divergencePressureStage, List.get?_map]
    cases f.particles.get? i <;> simp
  · norm_num [SmoothedParticle.interpolate_div, readField_velocity_predict,
      pApproachA, pApproachB, smoothing_kernel_grad, supportRadius, Vec3.sub_def,
      Vec3.sqLength_mk, Vec3.smul_def, Vec3.dot_mk, Vec3.zero_def]
  · norm_num [Fluid.divergencePressureStage, fluidApproach, pApproachA, pApproachB]

/-- C2: the claim says `average_density` is recomputed inside the
density-correction loop and the loop terminates once it is within
threshold; in the code no statement of the loop body (or of
`pressure.rs` at all) writes `average_density`, so an iteration leaves
it unchanged and a fluid entering the loop with
`average_density - rest_density > threshold` loops forever (the
embedding returns `none` for every fuel). -/
theorem density_loop_average_density_never_recomputed
    (f : Fluid) (threshold : ℚ) (fuel : ℕ) :
    (Fluid.densityIteration f).average_density = f.average_density ∧
    (threshold < f.average_density - f.rest_density →
      Fluid.correct_density f threshold fuel = none) :=
  ⟨rfl, fun h => Fluid.correctDensityLoop_none threshold fuel 0 f h⟩

/-- Witness for C2's theorem: a concrete over-dense fluid satisfies the
hypothesis and its density correction never terminates. -/
theorem density_loop_average_density_never_recomputed_witness :
    ((1/8 : ℚ) < fluidOverDense.average_density - fluidOverDense.rest_density) ∧
    Fluid.correct_density fluidOverDense (1/8) 4 = none :=
  ⟨by norm_num [fluidOverDense],
    (density_loop_average_density_never_recomputed fluidOverDense (1/8) 4).2
      (by norm_num [fluidOverDense])⟩

/-- C3: the claim says the CFL stage guards `max_velocity == 0` and
falls back to a configured maximum timestep; `Fluid::apply_cfl`
(`pressure.rs:142`) divides unconditionally (and `Fluid` has no
maximum-timestep field), so on a fluid whose particles are all at rest
the divisor is exactly zero and the `f32` division produces a
non-finite `delta_time` (the checked division is `none`). -/
theorem cfl_zero_max_velocity_nonfinite :
    Fluid.get_max_velocity fluidAtRest = 0 ∧ Fluid.applyCflFinite fluidAtRest = none := by
  have h : Fluid.get_max_velocity fluidAtRest = 0 := by
    norm_num [Fluid.get_max_velocity, fluidAtRest, pRest, pRest2, Vec3.length, Vec3.sqLength]
  refine ⟨h, ?_⟩
  norm_num [Fluid.applyCflFinite, Fluid.divFinite, h]

/-- C4 counterexample: the claim says no particle's `dsph_factor` from
a previous step survives the factor-update stage, including when the
neighbor query yields no neighbors; on a fluid whose query answers
`none` the `if let Some` of `pressure.rs:150` skips the update and the
stale factor `7` survives, although recomputation (from the empty
neighbor set) would give `0`. -/
theorem stale_dsph_factor_survives_cex :
    ((Fluid.factorUpdateStage fluidStaleFactor).particles.map fun p => p.dsph_factor) = [7] ∧
    SmoothedParticle.compute_dsph_factor pStale [] = 0 ∧ (7 : ℚ) ≠ 0 := by
  refine ⟨?_, ?_, by norm_num⟩
  · norm_num [Fluid.factorUpdateStage, Fluid.getNeighbors, fluidStaleFactor, pStale]
  · simp [SmoothedParticle.compute_dsph_factor, Vec3.zero_def, Vec3.sqLength_mk]

/-- C4 amended: the factor-update stage recomputes each particle's
`dsph_factor` from the current neighbor set when the neighbor query
returns a result, and keeps the particle's previous value when the
query returns `none`. -/
theorem dsph_factor_update_amended (f : Fluid) (i : ℕ) :
    ((Fluid.factorUpdateStage f).particles.get? i).map (fun p => p.dsph_factor) =
      (f.particles.get? i).map fun p =>
        match f.getNeighbors p.position with
        | some others => p.compute_dsph_factor others
        | none => p.dsph_factor := by
  simp only [Fluid.factorUpdateStage, List.get?_map]
  cases f.particles.get? i with
  | none => rfl
  | some p => cases h : f.getNeighbors p.position <;> simp [h]

/-- C5: one `dfsph` call is exactly the composition, in source order,
of factor update, CFL adaptation, advection, density correction,
position integration, neighborhood rebuild, divergence correction and
velocity commit — the rebuild after integration and before the
divergence solver. -/
theorem dfsph_stage_order (fuel : ℕ) (f : Fluid) :
    Fluid.dfsph fuel f =
      (Fluid.correct_density (Fluid.advectStage (Fluid.apply_cfl (Fluid.factorUpdateStage f)))
          (Fluid.advectStage (Fluid.apply_cfl (Fluid.factorUpdateStage f))).density_threshold
          fuel).bind
        fun f₄ =>
          (Fluid.correct_divergence (Fluid.rebuildStage (Fluid.integrateStage f₄))
              (Fluid.rebuildStage (Fluid.integrateStage f₄)).divergence_threshold fuel).bind
            fun f₇ => some (Fluid.commitStage f₇) := by
  cases h₁ : Fluid.correct_density
      (Fluid.advectStage (Fluid.apply_cfl (Fluid.factorUpdateStage f)))
      (Fluid.advectStage (Fluid.apply_cfl (Fluid.factorUpdateStage f))).density_threshold
      fuel with
  | none => simp [Fluid.dfsph, h₁]
  | some f₄ =>
    cases h₂ : Fluid.correct_divergence (Fluid.rebuildStage (Fluid.integrateStage f₄))
        (Fluid.rebuildStage (Fluid.integrateStage f₄)).divergence_threshold fuel with
    | none => simp [Fluid.dfsph, h₁, h₂]
    | some f₇ => simp [Fluid.dfsph, h₁, h₂]

/-- C6: in a density-correction iteration each particle's `pressure`
comes out as `1/delta_time² * (density_predict - rest_density) *
dsph_factor`, where `density_predict` is the value just recomputed by
the iteration's first loop (`pressure.rs:77`). -/
theorem density_pressure_update_formula (f : Fluid) (i : ℕ) :
    ((Fluid.densityIteration f).particles.get? i).map (fun p => p.pressure) =
      ((Fluid.densityPredictStage f).particles.get? i).map fun p =>
        1 / f.delta_time ^ 2 * (p.density_predict - f.rest_density) * p.dsph_factor := by
  simp only [Fluid.densityIteration, Fluid.densityAccumulateStage, Fluid.densityPressureStage,
    List.get?_map]
  cases (Fluid.densityPredictStage f).particles.get? i <;> rfl

/-- C7: with the kernel gradient antisymmetric, the per-neighbor
velocity-correction summands of both solvers exchange momentum
antisymmetrically: the change in `mass • velocity_predict` that
particle `q` induces on particle `p` is the negation of the change `p`
induces on `q`. -/
theorem pairwise_momentum_exchange_antisymmetric (dt : ℚ) (p q : SmoothedParticle) :
    p.mass • ((-dt) • Fluid.densityPairTerm p q)
        = -(q.mass • ((-dt) • Fluid.densityPairTerm q p)) ∧
    p.mass • ((-dt) • Fluid.divergencePairTerm p q)
        = -(q.mass • ((-dt) • Fluid.divergencePairTerm q p)) := by
  constructor
  · simp only [Fluid.densityPairTerm]
    rw [smoothing_kernel_grad_antisymm q.position p.position none]
    generalize smoothing_kernel_grad p.position q.position none = g
    obtain ⟨gx, gy, gz⟩ := g
    simp only [Vec3.neg_def, Vec3.smul_def, Vec3.mk.injEq]
    refine ⟨by ring, by ring, by ring⟩
  · simp only [Fluid.divergencePairTerm]
    rw [smoothing_kernel_grad_antisymm q.position p.position none]
    generalize smoothing_kernel_grad p.position q.position none = g
    obtain ⟨gx, gy, gz⟩ := g
    simp only [Vec3.neg_def, Vec3.smul_def, Vec3.mk.injEq]
    refine ⟨by ring, by ring, by ring⟩

/-- C8 counterexample: the claim says a `none` neighbor query leaves
the particle's pressure correction disabled; on a fluid whose query
answers `none` while the particle carries the stale factor `9`, the
factor-update stage leaves `dsph_factor = 9 ≠ 0`, so the pressure
correction is not disabled. -/
theorem no_neighbors_factor_not_disabled_cex :
    fluidIsolated2.neighborhoods pIso2.position = none ∧
    ((Fluid.factorUpdateStage fluidIsolated2).particles.map fun p => p.dsph_factor) = [9] ∧
    (9 : ℚ) ≠ 0 := by
  refine ⟨rfl, ?_, by norm_num⟩
  norm_num [Fluid.factorUpdateStage, Fluid.getNeighbors, fluidIsolated2, pIso2]

/-- C8 amended: when the neighbor query for a particle's position
returns `none`, the factor-update stage leaves that particle unchanged
(so its pressure correction stays disabled only if its factor was
already zero), and both accumulation loops treat the missing result as
an empty sequence, leaving the particle's `velocity_predict`
unchanged; no stage fails. -/
theorem no_neighbors_tolerated_amended (f : Fluid) (i : ℕ) (p : SmoothedParticle)
    (hp : f.particles.get? i = some p) (hn : f.neighborhoods p.position = none) :
    (Fluid.factorUpdateStage f).particles.get? i = some p ∧
    ((Fluid.densityAccumulateStage f).particles.get? i).map (fun q => q.velocity_predict) =
      some p.velocity_predict ∧
    ((Fluid.divergenceAccumulateStage f).particles.get? i).map (fun q => q.velocity_predict) =
      some p.velocity_predict := by
  have hgn : f.getNeighbors p.position = none := by
    simp [Fluid.getNeighbors, hn]
  refine ⟨?_, ?_, ?_⟩
  · simp only [Fluid.factorUpdateStage, List.get?_map, hp, Option.map_some', hgn]
  · simp only [Fluid.densityAccumulateStage, List.get?_map, hp, Option.map_some', hgn,
      Option.getD_none, List.map_nil, List.foldl_nil, Vec3.smul_zero_vec, Vec3.sub_zero_vec]
  · simp only [Fluid.divergenceAccumulateStage, List.get?_map, hp, Option.map_some', hgn,
      Option.getD_none, List.map_nil, List.foldl_nil, Vec3.smul_zero_vec, Vec3.sub_zero_vec]

/-- Witness for C8's amended theorem: a concrete isolated particle
satisfies both hypotheses and all three conclusions. -/
theorem no_neighbors_tolerated_amended_witness :
    (fluidIsolated.particles.get? 0 = some pIso ∧
      fluidIsolated.neighborhoods pIso.position = none) ∧
    ((Fluid.factorUpdateStage fluidIsolated).particles.get? 0 = some pIso ∧
      ((Fluid.densityAccumulateStage fluidIsolated).particles.get? 0).map
        (fun q => q.velocity_predict) = some pIso.velocity_predict ∧
      ((Fluid.divergenceAccumulateStage fluidIsolated).particles.get? 0).map
        (fun q => q.velocity_predict) = some pIso.velocity_predict) :=
  ⟨⟨rfl, rfl⟩, no_neighbors_tolerated_amended fluidIsolated 0 pIso rfl rfl⟩

/-- C9: the density-correction loop's continuation condition reads the
stored `average_density`, which no statement of the body writes, so
for every starting state and any fuel at least 3, the loop stops after
exactly two body iterations when `average_density - rest_density ≤
threshold` held on entry, and never terminates otherwise. -/
theorem density_loop_termination_characterization (f : Fluid) (threshold : ℚ) (fuel : ℕ) :
    Fluid.correct_density f threshold (fuel + 3) =
      if f.average_density - f.rest_density ≤ threshold then
        some (Fluid.densityIteration (Fluid.densityIteration f))
      else none := by
  by_cases h : f.average_density - f.rest_density ≤ threshold
  · rw [if_pos h]
    exact Fluid.correctDensityLoop_converged threshold f h fuel
  · rw [if_neg h]
    exact Fluid.correctDensityLoop_none threshold (fuel + 3) 0 f (not_le.mp h)

/-- C10: whenever a `dfsph` step completes, every particle's `mass` and
`density` columns are unchanged (stated without hypotheses: the
`Option.map` images coincide, so a `none` step is trivially covered and
a `some` step preserves both columns). -/
theorem dfsph_preserves_mass_density (fuel : ℕ) (f : Fluid) :
    (Fluid.dfsph fuel f).map Fluid.massDensityProfile =
      (Fluid.dfsph fuel f).map fun _ => Fluid.massDensityProfile f := by
  cases h₁ : Fluid.correct_density
      (Fluid.advectStage (Fluid.apply_cfl (Fluid.factorUpdateStage f)))
      (Fluid.advectStage (Fluid.apply_cfl (Fluid.factorUpdateStage f))).density_threshold
      fuel with
  | none => simp [Fluid.dfsph, h₁]
  | some f₄ =>
    have e₁ : Fluid.massDensityProfile f₄ =
        Fluid.massDensityProfile (Fluid.advectStage (Fluid.apply_cfl (Fluid.factorUpdateStage f))) :=
      Fluid.correctDensityLoop_profile _ fuel 0 _ f₄ h₁
    cases h₂ : Fluid.correct_divergence (Fluid.rebuildStage (Fluid.integrateStage f₄))
        (Fluid.rebuildStage (Fluid.integrateStage f₄)).divergence_threshold fuel with
    | none => simp [Fluid.dfsph, h₁, h₂]
    | some f₇ =>
      have e₂ : Fluid.massDensityProfile f₇ =
          Fluid.massDensityProfile (Fluid.rebuildStage (Fluid.integrateStage f₄)) :=
        Fluid.correctDivergenceLoop_profile _ fuel 0 0 0 _ f₇ h₂
      simp only [Fluid.dfsph, h₁, h₂, Option.map_some']
      rw [Fluid.profile_commitStage, e₂, Fluid.profile_rebuildStage,
        Fluid.profile_integrateStage, e₁, Fluid.profile_advectStage, Fluid.profile_apply_cfl,
        Fluid.profile_factorUpdateStage]

end Nikola
